import Mathlib

/-!
Shallow embedding of `backend/app/common/jwt.py` (token issuance, revocation
index bookkeeping in Redis, decode/validate and refresh paths).

Modelling choices:
* Time is an integer count of seconds; `now` is passed explicitly wherever the
  source calls `datetime.now()`.
* A JSON claim value is modelled by `JValue`; a claims payload is an
  association list with Python-dict lookup semantics (a later binding of the
  same key overrides an earlier one, as in `{'exp': ..., 'sub': ..., **kwargs}`).
* `jose.jwt.encode` is modelled as a perfect signature: a token is the claims
  payload tagged with the signing secret and algorithm, and `jose.jwt.decode`
  succeeds exactly when the secret matches, the algorithm is in the allowed
  list, the `exp` claim (when present) is not in the past, and the `sub`
  claim (when present) is a string, returning the payload.
* The Redis store is an association list from structured keys
  (namespace, subject, token) to (value, ttl) entries; `setex` overwrites,
  `delete_prefix` removes every entry of a (namespace, subject) pair, which is
  what deleting the string prefix `f'{ns}:{sub}:'` does to keys written by
  this module.
* `async` functions become state-passing functions on the store; raising
  becomes returning `Except AppError`.
-/

deriving instance DecidableEq for Except

namespace FBA

/-- A JSON-like claim value as used in the token payloads of this module. -/
inductive JValue where
  | jint (n : Int)
  | jstr (s : String)
  | jlist (l : List Int)
  | jbool (b : Bool)
  | jnull
deriving DecidableEq

/-- A claims payload: ordered key/value pairs with dict override semantics. -/
abbrev Claims := List (String × JValue)

/-- Python `dict.get`: the value of the LAST binding of `k` (later keyword
arguments override earlier literal entries in `{'exp': ..., **kwargs}`). -/
def dget (d : Claims) (k : String) : Option JValue :=
  d.foldl (fun acc e => if e.1 = k then some e.2 else acc) none

/-- A signed token in the perfect-signature model of `jose.jwt.encode`:
the claims payload together with the secret and algorithm it was signed
under.  Two tokens are equal iff payload, secret and algorithm all agree. -/
structure Token where
  claims : Claims
  secret : String
  alg : String
deriving DecidableEq

/-- The configuration surface read by `jwt.py` from `settings`. -/
structure Settings where
  TOKEN_SECRET_KEY : String
  TOKEN_ALGORITHM : String
  TOKEN_EXPIRE_SECONDS : Int
  TOKEN_REFRESH_EXPIRE_SECONDS : Int
  TOKEN_REDIS_PREFIX : String
  TOKEN_REFRESH_REDIS_PREFIX : String
deriving DecidableEq

/-- The two exception classes raised by this module
(`backend.app.common.exception.errors`): `TokenError` and
`AuthorizationError`, each with an optional `msg` argument. -/
inductive AppError where
  | tokenError (msg : Option String)
  | authorizationError (msg : Option String)
deriving DecidableEq

/-- A structured Redis key `f'{ns}:{sub}:{token}'` as written by this module. -/
structure RKey where
  ns : String
  sub : String
  tok : Token
deriving DecidableEq

/-- One live Redis entry: key, stored string value, and remaining ttl in
seconds as set by `setex`. -/
structure Entry where
  key : RKey
  value : Token
  ttl : Int
deriving DecidableEq

/-- The Redis state restricted to keys this module touches. -/
abbrev Store := List Entry

/-- Point lookup of the full entry at a key. -/
def redis_entry : Store → RKey → Option Entry
  | [], _ => none
  | e :: rest, k => if e.key = k then some e else redis_entry rest k

/-- `redis_client.get(key)`: the stored value, or `none` when absent. -/
def redis_get (st : Store) (k : RKey) : Option Token :=
  (redis_entry st k).map Entry.value

/-- Remove any entry stored at exactly key `k`. -/
def remove_key : Store → RKey → Store
  | [], _ => []
  | e :: rest, k => if e.key = k then remove_key rest k else e :: remove_key rest k

/-- `redis_client.setex(key, seconds, value)`: overwrite the entry at `k`. -/
def redis_setex (st : Store) (k : RKey) (seconds : Int) (v : Token) : Store :=
  ⟨k, v, seconds⟩ :: remove_key st k

/-- `redis_client.delete_prefix(f'{ns}:{sub}:')`: delete every entry whose
key lies under the given namespace and subject. -/
def delete_prefixed : Store → String → String → Store
  | [], _, _ => []
  | e :: rest, ns, sub =>
    if e.key.ns = ns ∧ e.key.sub = sub then delete_prefixed rest ns sub
    else e :: delete_prefixed rest ns sub

/-- The sub-list of entries live under the `f'{ns}:{sub}:'` key space. -/
def live_entries : Store → String → String → Store
  | [], _, _ => []
  | e :: rest, ns, sub =>
    if e.key.ns = ns ∧ e.key.sub = sub then e :: live_entries rest ns sub
    else live_entries rest ns sub

/-- `jose` expiry validation: when an `exp` claim is present it must be an
integer timestamp not strictly in the past (`exp < now` raises
`ExpiredSignatureError`). -/
def exp_ok (c : Claims) (now : Int) : Bool :=
  match dget c "exp" with
  | some (JValue.jint e) => decide (now ≤ e)
  | some _ => false
  | none => true

/-- `jose` subject validation: a present `sub` claim must be a string. -/
def sub_claim_ok (c : Claims) : Bool :=
  match dget c "sub" with
  | some (JValue.jstr _) => true
  | none => true
  | some _ => false

/-- Model of `jose.jwt.decode(token, key, algorithms)` at time `now`:
signature (secret) and algorithm must match and the registered-claim
validations must pass; on success the claims payload is returned. -/
def jose_decode (tok : Token) (key : String) (algs : List String) (now : Int) :
    Option Claims :=
  if tok.secret = key ∧ tok.alg ∈ algs ∧ exp_ok tok.claims now ∧ sub_claim_ok tok.claims
  then some tok.claims else none

/-- Accumulate a decimal digit string into a natural number; any non-digit
character fails. -/
def digits_val : List Char → Nat → Option Nat
  | [], acc => some acc
  | c :: rest, acc =>
    if c.isDigit then digits_val rest (acc * 10 + (c.toNat - 48)) else none

/-- Python `int(s)` on a string: an optional sign followed by at least one
decimal digit; anything else raises `ValueError`, modelled as `none`. -/
def py_int_of_string (s : String) : Option Int :=
  match s.toList with
  | [] => none
  | '-' :: rest =>
    if rest = [] then none else (digits_val rest 0).map (fun n => -(n : Int))
  | '+' :: rest =>
    if rest = [] then none else (digits_val rest 0).map (fun n => (n : Int))
  | l => (digits_val l 0).map (fun n => (n : Int))

/-- Python `int(x)` on a claim value (`None` and lists raise `TypeError`,
unparseable strings raise `ValueError`; both are modelled as `none`). -/
def pyInt : JValue → Option Int
  | JValue.jint n => some n
  | JValue.jstr s => py_int_of_string s
  | JValue.jbool b => some (if b then 1 else 0)
  | _ => none

/-- Python `list(x)` on a claim value holding the role id list; anything that
is not a list of integers is modelled as a failure. -/
def pyIntList : JValue → Option (List Int)
  | JValue.jlist l => some l
  | _ => none

/-- The `(token, expire)` pair returned by the issuing coroutines, together
with the Redis store after their writes. -/
structure IssueResult where
  token : Token
  expire : Int
  store : Store
deriving DecidableEq

/-- `create_access_token(sub, expires_delta, **kwargs)` at time `now`.
`multi_login` is the (popped) `kwargs.pop('multi_login', None)`; the
remaining keyword arguments `kwargs` are spliced into the payload. -/
def create_access_token (S : Settings) (now : Int) (sub : String)
    (expires_delta : Option Int) (multi_login : Option Bool)
    (kwargs : Claims) (st : Store) : IssueResult :=
  let expire : Int :=
    match expires_delta with
    | some d => now + d
    | none => now + S.TOKEN_EXPIRE_SECONDS
  let expire_seconds : Int :=
    match expires_delta with
    | some d => d
    | none => S.TOKEN_EXPIRE_SECONDS
  let to_encode : Claims := ("exp", JValue.jint expire) :: ("sub", JValue.jstr sub) :: kwargs
  let token : Token := ⟨to_encode, S.TOKEN_SECRET_KEY, S.TOKEN_ALGORITHM⟩
  let st1 : Store :=
    if multi_login = some false then delete_prefixed st S.TOKEN_REDIS_PREFIX sub else st
  let st2 : Store := redis_setex st1 ⟨S.TOKEN_REDIS_PREFIX, sub, token⟩ expire_seconds token
  ⟨token, expire, st2⟩

/-- `create_refresh_token(sub, expire_time, **kwargs)` at time `now`:
with an anchor `expire_time` the expiry is anchor + refresh lifetime and the
ttl is the seconds from `now` to that expiry; otherwise now + lifetime. -/
def create_refresh_token (S : Settings) (now : Int) (sub : String)
    (expire_time : Option Int) (multi_login : Option Bool)
    (kwargs : Claims) (st : Store) : IssueResult :=
  let expire : Int :=
    match expire_time with
    | some t => t + S.TOKEN_REFRESH_EXPIRE_SECONDS
    | none => now + S.TOKEN_REFRESH_EXPIRE_SECONDS
  let expire_seconds : Int :=
    match expire_time with
    | some t => t + S.TOKEN_REFRESH_EXPIRE_SECONDS - now
    | none => S.TOKEN_REFRESH_EXPIRE_SECONDS
  let to_encode : Claims := ("exp", JValue.jint expire) :: ("sub", JValue.jstr sub) :: kwargs
  let refresh_token : Token := ⟨to_encode, S.TOKEN_SECRET_KEY, S.TOKEN_ALGORITHM⟩
  let st1 : Store :=
    if multi_login = some false then delete_prefixed st S.TOKEN_REFRESH_REDIS_PREFIX sub else st
  let st2 : Store :=
    redis_setex st1 ⟨S.TOKEN_REFRESH_REDIS_PREFIX, sub, refresh_token⟩ expire_seconds refresh_token
  ⟨refresh_token, expire, st2⟩

/-- `create_new_token(sub, refresh_token, **kwargs)`: look the refresh token
up in its namespace; absent or mismatching stored value raises
`TokenError('refresh_token 已过期')`, otherwise a fresh access token is
issued with the pass-through keyword arguments. -/
def create_new_token (S : Settings) (now : Int) (sub : String) (rtok : Token)
    (multi_login : Option Bool) (kwargs : Claims) (st : Store) :
    Except AppError IssueResult :=
  match redis_get st ⟨S.TOKEN_REFRESH_REDIS_PREFIX, sub, rtok⟩ with
  | none => Except.error (AppError.tokenError (some "refresh_token 已过期"))
  | some v =>
    if v = rtok then Except.ok (create_access_token S now sub none multi_login kwargs st)
    else Except.error (AppError.tokenError (some "refresh_token 已过期"))

/-- Split a character list at its first space: Python
`s.partition(" ")` restricted to the pieces before and after the space. -/
def split_first_space : List Char → List Char × List Char
  | [] => ([], [])
  | c :: rest =>
    if c = ' ' then ([], rest)
    else
      let p := split_first_space rest
      (c :: p.1, p.2)

/-- Python `str.lower()` (ASCII case folding, as applies to header schemes). -/
def py_lower (s : String) : String := ⟨s.toList.map Char.toLower⟩

/-- `fastapi.security.utils.get_authorization_scheme_param`: split the header
value at the first space into `(scheme, param)`; a missing or empty header
yields `("", "")`. -/
def get_authorization_scheme_param (authorization : Option String) : String × String :=
  match authorization with
  | none => ("", "")
  | some s =>
    if s = "" then ("", "")
    else
      let p := split_first_space s.toList
      (⟨p.1⟩, ⟨p.2⟩)

/-- `get_token(request)`: the `Authorization` header value is `authorization`
(`none` when the header is absent); a falsy header or a scheme other than
case-insensitive `bearer` raises a bare `TokenError`. -/
def get_token (authorization : Option String) : Except AppError String :=
  let sp := get_authorization_scheme_param authorization
  if authorization = none ∨ authorization = some "" ∨ py_lower sp.1 ≠ "bearer"
  then Except.error (AppError.tokenError none)
  else Except.ok sp.2

/-- `jwt_decode(token)` at time `now`: decode via `jose`, then
`int(payload.get('sub'))` and `list(payload.get('role_ids'))`; a falsy
user id or role list — and every exception of the `try` block — raises a
bare `TokenError`. -/
def jwt_decode (S : Settings) (now : Int) (tok : Token) :
    Except AppError (Int × List Int) :=
  match jose_decode tok S.TOKEN_SECRET_KEY [S.TOKEN_ALGORITHM] now with
  | none => Except.error (AppError.tokenError none)
  | some payload =>
    match (dget payload "sub").bind pyInt, (dget payload "role_ids").bind pyIntList with
    | some user_id, some role_ids =>
      if user_id = 0 ∨ role_ids = [] then Except.error (AppError.tokenError none)
      else Except.ok (user_id, role_ids)
    | _, _ => Except.error (AppError.tokenError none)

/-- The `User` model fields read by this module. -/
structure UserRec where
  id : Int
  is_active : Bool
  is_superuser : Bool
deriving DecidableEq

/-- `get_current_user(db, data)`: `lookup` models the external
`UserDao.get_with_relation` collaborator and `sub` is `data.get('sub')`.
A missing user raises `TokenError`; an inactive user raises
`AuthorizationError('用户已锁定')`. -/
def get_current_user (lookup : Int → Option UserRec) (sub : Int) :
    Except AppError UserRec :=
  match lookup sub with
  | none => Except.error (AppError.tokenError none)
  | some u =>
    if u.is_active = false then Except.error (AppError.authorizationError (some "用户已锁定"))
    else Except.ok u

/-! ### Helper lemmas -/

theorem dget_foldl_of_forall_ne (l : Claims) (k : String) (acc : Option JValue)
    (h : ∀ e ∈ l, e.1 ≠ k) :
    l.foldl (fun acc e => if e.1 = k then some e.2 else acc) acc = acc := by
  induction l generalizing acc with
  | nil => rfl
  | cons e t ih =>
    simp only [List.foldl_cons]
    rw [if_neg (h e (by simp))]
    exact ih acc (fun x hx => h x (by simp [hx]))

theorem dget_cons_ne (e : String × JValue) (l : Claims) (k : String) (h : e.1 ≠ k) :
    dget (e :: l) k = dget l k := by
  unfold dget
  simp only [List.foldl_cons]
  rw [if_neg h]

theorem dget_cons_base (e : String × JValue) (l : Claims) (k : String) (he : e.1 = k)
    (h : ∀ x ∈ l, x.1 ≠ k) :
    dget (e :: l) k = some e.2 := by
  unfold dget
  simp only [List.foldl_cons]
  rw [if_pos he]
  exact dget_foldl_of_forall_ne l k (some e.2) h

theorem dget_to_encode_exp (a b : JValue) (kwargs : Claims)
    (h : ∀ e ∈ kwargs, e.1 ≠ "exp") :
    dget (("exp", a) :: ("sub", b) :: kwargs) "exp" = some a := by
  refine dget_cons_base _ _ _ rfl ?_
  intro x hx
  rcases List.mem_cons.mp hx with hx | hx
  · subst hx; simp
  · exact h x hx

theorem dget_to_encode_sub (a b : JValue) (kwargs : Claims)
    (h : ∀ e ∈ kwargs, e.1 ≠ "sub") :
    dget (("exp", a) :: ("sub", b) :: kwargs) "sub" = some b := by
  rw [dget_cons_ne _ _ _ (by simp)]
  exact dget_cons_base _ _ _ rfl h

theorem dget_to_encode_other (a b : JValue) (kwargs : Claims) (k : String)
    (h1 : k ≠ "exp") (h2 : k ≠ "sub") :
    dget (("exp", a) :: ("sub", b) :: kwargs) k = dget kwargs k := by
  rw [dget_cons_ne _ _ _ (fun hc => h1 hc.symm), dget_cons_ne _ _ _ (fun hc => h2 hc.symm)]

theorem redis_entry_remove_key_ne (st : Store) (k k' : RKey) (h : k' ≠ k) :
    redis_entry (remove_key st k) k' = redis_entry st k' := by
  induction st with
  | nil => rfl
  | cons e t ih =>
    simp only [remove_key]
    split
    · rename_i he
      rw [ih, redis_entry, if_neg (fun hc => h (hc.symm.trans he))]
    · rw [redis_entry, redis_entry]
      by_cases hk : e.key = k'
      · rw [if_pos hk, if_pos hk]
      · rw [if_neg hk, if_neg hk, ih]

theorem redis_entry_setex_self (st : Store) (k : RKey) (ttl : Int) (v : Token) :
    redis_entry (redis_setex st k ttl v) k = some ⟨k, v, ttl⟩ := by
  rw [redis_setex, redis_entry, if_pos rfl]

theorem redis_entry_setex_ne (st : Store) (k : RKey) (ttl : Int) (v : Token)
    (k' : RKey) (h : k' ≠ k) :
    redis_entry (redis_setex st k ttl v) k' = redis_entry st k' := by
  rw [redis_setex, redis_entry, if_neg (fun hc => h hc.symm)]
  exact redis_entry_remove_key_ne st k k' h

theorem redis_entry_delete_prefixed_hit (st : Store) (ns sub : String) (k : RKey)
    (h1 : k.ns = ns) (h2 : k.sub = sub) :
    redis_entry (delete_prefixed st ns sub) k = none := by
  induction st with
  | nil => rfl
  | cons e t ih =>
    simp only [delete_prefixed]
    split
    · exact ih
    · rename_i hcond
      rw [redis_entry, if_neg (fun hek => hcond ⟨by rw [hek, h1], by rw [hek, h2]⟩)]
      exact ih

theorem redis_entry_delete_prefixed_miss (st : Store) (ns sub : String) (k : RKey)
    (h : ¬(k.ns = ns ∧ k.sub = sub)) :
    redis_entry (delete_prefixed st ns sub) k = redis_entry st k := by
  induction st with
  | nil => rfl
  | cons e t ih =>
    simp only [delete_prefixed]
    split
    · rename_i hcond
      rw [ih, redis_entry, if_neg ?_]
      intro hek
      rw [← hek] at h
      exact h hcond
    · rw [redis_entry, redis_entry]
      by_cases hk : e.key = k
      · rw [if_pos hk, if_pos hk]
      · rw [if_neg hk, if_neg hk, ih]

theorem live_entries_delete_prefixed (st : Store) (ns sub : String) :
    live_entries (delete_prefixed st ns sub) ns sub = [] := by
  induction st with
  | nil => rfl
  | cons e t ih =>
    simp only [delete_prefixed]
    split
    · exact ih
    · rename_i hcond
      rw [live_entries, if_neg hcond]
      exact ih

theorem live_entries_remove_key_nil (st : Store) (ns sub : String) (k : RKey)
    (h : live_entries st ns sub = []) :
    live_entries (remove_key st k) ns sub = [] := by
  induction st with
  | nil => rfl
  | cons e t ih =>
    rw [live_entries] at h
    by_cases hcond : e.key.ns = ns ∧ e.key.sub = sub
    · rw [if_pos hcond] at h
      exact absurd h (List.cons_ne_nil _ _)
    · rw [if_neg hcond] at h
      simp only [remove_key]
      split
      · exact ih h
      · rw [live_entries, if_neg hcond]
        exact ih h

theorem mem_remove_key (st : Store) (k : RKey) (e : Entry) (h : e ∈ remove_key st k) :
    e ∈ st := by
  induction st with
  | nil => exact absurd h (List.not_mem_nil e)
  | cons x t ih =>
    simp only [remove_key] at h
    by_cases hx : x.key = k
    · rw [if_pos hx] at h
      exact List.mem_cons_of_mem _ (ih h)
    · rw [if_neg hx] at h
      rcases List.mem_cons.mp h with h | h
      · exact List.mem_cons.mpr (Or.inl h)
      · exact List.mem_cons_of_mem _ (ih h)

theorem mem_delete_prefixed (st : Store) (ns sub : String) (e : Entry)
    (h : e ∈ delete_prefixed st ns sub) : e ∈ st := by
  induction st with
  | nil => exact absurd h (List.not_mem_nil e)
  | cons x t ih =>
    simp only [delete_prefixed] at h
    by_cases hx : x.key.ns = ns ∧ x.key.sub = sub
    · rw [if_pos hx] at h
      exact List.mem_cons_of_mem _ (ih h)
    · rw [if_neg hx] at h
      rcases List.mem_cons.mp h with h | h
      · exact List.mem_cons.mpr (Or.inl h)
      · exact List.mem_cons_of_mem _ (ih h)

theorem redis_entry_eq_some (st : Store) (k : RKey) (e : Entry)
    (h : redis_entry st k = some e) : e ∈ st ∧ e.key = k := by
  induction st with
  | nil => cases h
  | cons x t ih =>
    rw [redis_entry] at h
    by_cases hx : x.key = k
    · rw [if_pos hx] at h
      cases h
      exact ⟨List.mem_cons_self _ _, hx⟩
    · rw [if_neg hx] at h
      obtain ⟨hm, hk⟩ := ih h
      exact ⟨List.mem_cons_of_mem _ hm, hk⟩

/-! ### Definitional unfoldings of the issuing functions -/

theorem create_access_token_token (S : Settings) (now : Int) (sub : String)
    (d : Option Int) (ml : Option Bool) (kwargs : Claims) (st : Store) :
    (create_access_token S now sub d ml kwargs st).token
      = ⟨("exp", JValue.jint (create_access_token S now sub d ml kwargs st).expire)
          :: ("sub", JValue.jstr sub) :: kwargs,
          S.TOKEN_SECRET_KEY, S.TOKEN_ALGORITHM⟩ := rfl

theorem create_access_token_store (S : Settings) (now : Int) (sub : String)
    (d : Option Int) (ml : Option Bool) (kwargs : Claims) (st : Store) :
    (create_access_token S now sub d ml kwargs st).store
      = redis_setex
          (if ml = some false then delete_prefixed st S.TOKEN_REDIS_PREFIX sub else st)
          ⟨S.TOKEN_REDIS_PREFIX, sub, (create_access_token S now sub d ml kwargs st).token⟩
          (match d with
            | some x => x
            | none => S.TOKEN_EXPIRE_SECONDS)
          (create_access_token S now sub d ml kwargs st).token := rfl

theorem create_refresh_token_token (S : Settings) (now : Int) (sub : String)
    (T : Option Int) (ml : Option Bool) (kwargs : Claims) (st : Store) :
    (create_refresh_token S now sub T ml kwargs st).token
      = ⟨("exp", JValue.jint (create_refresh_token S now sub T ml kwargs st).expire)
          :: ("sub", JValue.jstr sub) :: kwargs,
          S.TOKEN_SECRET_KEY, S.TOKEN_ALGORITHM⟩ := rfl

theorem create_refresh_token_store (S : Settings) (now : Int) (sub : String)
    (T : Option Int) (ml : Option Bool) (kwargs : Claims) (st : Store) :
    (create_refresh_token S now sub T ml kwargs st).store
      = redis_setex
          (if ml = some false then delete_prefixed st S.TOKEN_REFRESH_REDIS_PREFIX sub else st)
          ⟨S.TOKEN_REFRESH_REDIS_PREFIX, sub, (create_refresh_token S now sub T ml kwargs st).token⟩
          (match T with
            | some t => t + S.TOKEN_REFRESH_EXPIRE_SECONDS - now
            | none => S.TOKEN_REFRESH_EXPIRE_SECONDS)
          (create_refresh_token S now sub T ml kwargs st).token := rfl

/-- The second issuance under single-session mode leaves exactly its own
entry live under the subject's access key space, whatever the store was. -/
theorem live_entries_after_single_access (S : Settings) (now : Int) (sub : String)
    (d : Option Int) (kwargs : Claims) (st : Store) :
    ∃ t : Int,
      live_entries (create_access_token S now sub d (some false) kwargs st).store
          S.TOKEN_REDIS_PREFIX sub
        = [⟨⟨S.TOKEN_REDIS_PREFIX, sub,
              (create_access_token S now sub d (some false) kwargs st).token⟩,
            (create_access_token S now sub d (some false) kwargs st).token, t⟩] := by
  refine ⟨match d with | some x => x | none => S.TOKEN_EXPIRE_SECONDS, ?_⟩
  rw [create_access_token_store, if_pos rfl, redis_setex, live_entries, if_pos ⟨rfl, rfl⟩,
    live_entries_remove_key_nil _ _ _ _ (live_entries_delete_prefixed st _ _)]

/-! ### Claim theorems (first batch) -/

/-- C3: `jwt_decode` either succeeds or fails with the single error kind
`TokenError` (a bare one, carrying no message) — invalid signature, wrong
algorithm, malformed payload, expiry, and missing or falsy
`sub`/`role_ids` all collapse to the same error value, so no failure
sub-case is distinguishable by its type. -/
theorem jwt_decode_single_error_kind (S : Settings) (now : Int) (tok : Token) :
    (∃ v, jwt_decode S now tok = Except.ok v) ∨
      jwt_decode S now tok = Except.error (AppError.tokenError none) := by
  cases hj : jose_decode tok S.TOKEN_SECRET_KEY [S.TOKEN_ALGORITHM] now with
  | none => right; simp [jwt_decode, hj]
  | some payload =>
    cases hs : (dget payload "sub").bind pyInt with
    | none => right; simp [jwt_decode, hj, hs]
    | some uid =>
      cases hr : (dget payload "role_ids").bind pyIntList with
      | none => right; simp [jwt_decode, hj, hs, hr]
      | some ids =>
        by_cases h : uid = 0 ∨ ids = []
        · right; simp [jwt_decode, hj, hs, hr, h]
        · left; exact ⟨(uid, ids), by simp [jwt_decode, hj, hs, hr, h]⟩

/-- C6: after decode and revocation check, `get_current_user` raises
`TokenError` when the external lookup finds no user, raises
`AuthorizationError('用户已锁定')` when the user exists but is inactive, and
returns the user otherwise — the unauthenticated and forbidden outcomes stay
distinguishable. -/
theorem get_current_user_cases (lookup : Int → Option UserRec) (sub : Int) :
    (lookup sub = none →
      get_current_user lookup sub = Except.error (AppError.tokenError none))
    ∧ (∀ u, lookup sub = some u → u.is_active = false →
      get_current_user lookup sub
        = Except.error (AppError.authorizationError (some "用户已锁定")))
    ∧ (∀ u, lookup sub = some u → u.is_active = true →
      get_current_user lookup sub = Except.ok u) :=
  ⟨fun h => by simp [get_current_user, h],
   fun u h ha => by simp [get_current_user, h, ha],
   fun u h ha => by simp [get_current_user, h, ha]⟩

/-- Witness for C6: all three outcomes realised at concrete lookups. -/
theorem get_current_user_cases_witness :
    get_current_user (fun _ => none) 1 = Except.error (AppError.tokenError none)
    ∧ get_current_user (fun _ => some ⟨1, false, false⟩) 1
        = Except.error (AppError.authorizationError (some "用户已锁定"))
    ∧ get_current_user (fun _ => some ⟨1, true, false⟩) 1 = Except.ok ⟨1, true, false⟩ :=
  ⟨(get_current_user_cases (fun _ => none) 1).1 rfl,
   (get_current_user_cases (fun _ => some ⟨1, false, false⟩) 1).2.1 ⟨1, false, false⟩ rfl rfl,
   (get_current_user_cases (fun _ => some ⟨1, true, false⟩) 1).2.2 ⟨1, true, false⟩ rfl rfl⟩

/-- C7: `get_token` returns the extracted parameter exactly when the header
is present and its scheme is case-insensitively `bearer`, raises a bare
`TokenError` otherwise, and in particular rejects `"Basic abc123"`. -/
theorem get_token_bearer_only :
    (∀ authorization : Option String,
      (get_token authorization
          = Except.ok (get_authorization_scheme_param authorization).2
        ↔ authorization ≠ none
          ∧ py_lower (get_authorization_scheme_param authorization).1 = "bearer")
      ∧ (¬(authorization ≠ none
            ∧ py_lower (get_authorization_scheme_param authorization).1 = "bearer")
        → get_token authorization = Except.error (AppError.tokenError none)))
    ∧ get_token (some "Basic abc123") = Except.error (AppError.tokenError none) := by
  constructor
  · intro authorization
    cases authorization with
    | none => exact ⟨by simp [get_token], fun _ => by simp [get_token]⟩
    | some s =>
      by_cases hs : s = ""
      · subst hs
        constructor
        · simp [get_token, get_authorization_scheme_param, py_lower]
        · intro _; simp [get_token]
      · by_cases hb : py_lower (get_authorization_scheme_param (some s)).1 = "bearer"
        · constructor
          · simp [get_token, hs, hb]
          · intro hcon; exact absurd ⟨by simp, hb⟩ hcon
        · constructor
          · simp [get_token, hs, hb]
          · intro _; simp [get_token, hs, hb]
  · decide

/-- Witness for C7: the general clause applied at the absent header. -/
theorem get_token_bearer_only_witness :
    get_token none = Except.error (AppError.tokenError none) :=
  (get_token_bearer_only.1 none).2 (fun h => h.1 rfl)

/-- C10: a syntactically valid, unexpired token whose `sub` claim parses to
the integer 0 is rejected by `jwt_decode` even when `role_ids` is present and
non-empty: the truthiness check `if not user_id` rejects a present zero
subject id. -/
theorem jwt_decode_rejects_zero_sub (S : Settings) (now : Int) (tok : Token)
    (s : String) (e : Int) (ids : List Int)
    (hsec : tok.secret = S.TOKEN_SECRET_KEY)
    (halg : tok.alg = S.TOKEN_ALGORITHM)
    (hexpc : dget tok.claims "exp" = some (JValue.jint e))
    (hnow : now ≤ e)
    (hsubc : dget tok.claims "sub" = some (JValue.jstr s))
    (hzero : py_int_of_string s = some 0)
    (hrids : dget tok.claims "role_ids" = some (JValue.jlist ids))
    (_hids : ids ≠ []) :
    jwt_decode S now tok = Except.error (AppError.tokenError none) := by
  have hjose : jose_decode tok S.TOKEN_SECRET_KEY [S.TOKEN_ALGORITHM] now
      = some tok.claims := by
    simp [jose_decode, hsec, halg, exp_ok, hexpc, hnow, sub_claim_ok, hsubc]
  simp [jwt_decode, hjose, hsubc, pyInt, hzero, hrids, pyIntList]

/-- Witness for C10: a concrete signed, unexpired token with `sub = "0"` and
a non-empty role list is rejected. -/
theorem jwt_decode_rejects_zero_sub_witness :
    jwt_decode ⟨"k", "HS256", 3600, 604800, "fba_token", "fba_refresh"⟩ 0
      ⟨[("exp", JValue.jint 100), ("sub", JValue.jstr "0"), ("role_ids", JValue.jlist [1])],
        "k", "HS256"⟩ = Except.error (AppError.tokenError none) :=
  jwt_decode_rejects_zero_sub ⟨"k", "HS256", 3600, 604800, "fba_token", "fba_refresh"⟩ 0
    ⟨[("exp", JValue.jint 100), ("sub", JValue.jstr "0"), ("role_ids", JValue.jlist [1])],
      "k", "HS256"⟩ "0" 100 [1] rfl rfl (by decide) (by decide) (by decide) (by decide)
    (by decide) (by decide)

/-- C2: with a caller-supplied anchor `expire_time = T`, the refresh token's
returned expiry is `T + TOKEN_REFRESH_EXPIRE_SECONDS` — a value independent of
the current time — and the revocation entry is registered under the refresh
namespace with ttl equal to the seconds from `now` to that expiry. -/
theorem refresh_token_anchor (S : Settings) (now T : Int) (sub : String)
    (ml : Option Bool) (kwargs : Claims) (st : Store) :
    (create_refresh_token S now sub (some T) ml kwargs st).expire
        = T + S.TOKEN_REFRESH_EXPIRE_SECONDS
    ∧ redis_entry (create_refresh_token S now sub (some T) ml kwargs st).store
          ⟨S.TOKEN_REFRESH_REDIS_PREFIX, sub,
            (create_refresh_token S now sub (some T) ml kwargs st).token⟩
        = some ⟨⟨S.TOKEN_REFRESH_REDIS_PREFIX, sub,
              (create_refresh_token S now sub (some T) ml kwargs st).token⟩,
            (create_refresh_token S now sub (some T) ml kwargs st).token,
            (create_refresh_token S now sub (some T) ml kwargs st).expire - now⟩ := by
  constructor
  · rfl
  · rw [create_refresh_token_store, redis_entry_setex_self]
    rfl

/-- C4: sequentially issuing twice for the same subject in single-session
mode (`multi_login = False`) leaves exactly the entry written by the second
call live under the subject's access-namespace key space: the prefix delete
runs before the new entry is registered. -/
theorem single_session_second_wins (S : Settings) (now1 now2 : Int) (sub : String)
    (d1 d2 : Option Int) (kw1 kw2 : Claims) (st : Store) :
    ∃ t : Int,
      live_entries
          (create_access_token S now2 sub d2 (some false) kw2
            (create_access_token S now1 sub d1 (some false) kw1 st).store).store
          S.TOKEN_REDIS_PREFIX sub
        = [⟨⟨S.TOKEN_REDIS_PREFIX, sub,
              (create_access_token S now2 sub d2 (some false) kw2
                (create_access_token S now1 sub d1 (some false) kw1 st).store).token⟩,
            (create_access_token S now2 sub d2 (some false) kw2
              (create_access_token S now1 sub d1 (some false) kw1 st).store).token, t⟩] :=
  live_entries_after_single_access S now2 sub d2 kw2
    (create_access_token S now1 sub d1 (some false) kw1 st).store

/-- C8: in both issuing functions the prefix delete happens exactly when
`multi_login` is the explicit `False`: with `True` or no value every entry at
another key is untouched (the sole state change is adding the new entry),
while with `False` every other entry of the subject's namespace is removed. -/
theorem multi_login_delete_iff (S : Settings) (now : Int) (sub : String)
    (d T : Option Int) (ml : Option Bool) (kw1 kw2 : Claims) (st : Store) :
    (ml ≠ some false →
      (∀ k : RKey,
          k ≠ ⟨S.TOKEN_REDIS_PREFIX, sub, (create_access_token S now sub d ml kw1 st).token⟩ →
          redis_entry (create_access_token S now sub d ml kw1 st).store k = redis_entry st k)
      ∧ (∀ k : RKey,
          k ≠ ⟨S.TOKEN_REFRESH_REDIS_PREFIX, sub,
                (create_refresh_token S now sub T ml kw2 st).token⟩ →
          redis_entry (create_refresh_token S now sub T ml kw2 st).store k = redis_entry st k))
    ∧ (ml = some false →
      (∀ k : RKey, k.ns = S.TOKEN_REDIS_PREFIX → k.sub = sub →
          k ≠ ⟨S.TOKEN_REDIS_PREFIX, sub, (create_access_token S now sub d ml kw1 st).token⟩ →
          redis_entry (create_access_token S now sub d ml kw1 st).store k = none)
      ∧ (∀ k : RKey, k.ns = S.TOKEN_REFRESH_REDIS_PREFIX → k.sub = sub →
          k ≠ ⟨S.TOKEN_REFRESH_REDIS_PREFIX, sub,
                (create_refresh_token S now sub T ml kw2 st).token⟩ →
          redis_entry (create_refresh_token S now sub T ml kw2 st).store k = none)) := by
  constructor
  · intro hml
    constructor
    · intro k hk
      rw [create_access_token_store, if_neg hml, redis_entry_setex_ne _ _ _ _ _ hk]
    · intro k hk
      rw [create_refresh_token_store, if_neg hml, redis_entry_setex_ne _ _ _ _ _ hk]
  · intro hml
    constructor
    · intro k h1 h2 hk
      rw [create_access_token_store, if_pos hml, redis_entry_setex_ne _ _ _ _ _ hk,
        redis_entry_delete_prefixed_hit _ _ _ _ h1 h2]
    · intro k h1 h2 hk
      rw [create_refresh_token_store, if_pos hml, redis_entry_setex_ne _ _ _ _ _ hk,
        redis_entry_delete_prefixed_hit _ _ _ _ h1 h2]

/-- Witness for C8: a concrete pre-existing session entry survives an
issuance with `multi_login` absent and is removed with `multi_login = False`. -/
theorem multi_login_delete_iff_witness :
    redis_entry (create_access_token
        ⟨"k", "HS256", 3600, 604800, "fba_token", "fba_refresh"⟩ 0 "1" none none []
        [⟨⟨"fba_token", "1", ⟨[], "x", "y"⟩⟩, ⟨[], "x", "y"⟩, 5⟩]).store
        ⟨"fba_token", "1", ⟨[], "x", "y"⟩⟩
      = some ⟨⟨"fba_token", "1", ⟨[], "x", "y"⟩⟩, ⟨[], "x", "y"⟩, 5⟩
    ∧ redis_entry (create_access_token
        ⟨"k", "HS256", 3600, 604800, "fba_token", "fba_refresh"⟩ 0 "1" none (some false) []
        [⟨⟨"fba_token", "1", ⟨[], "x", "y"⟩⟩, ⟨[], "x", "y"⟩, 5⟩]).store
        ⟨"fba_token", "1", ⟨[], "x", "y"⟩⟩
      = none :=
  ⟨(((multi_login_delete_iff
        ⟨"k", "HS256", 3600, 604800, "fba_token", "fba_refresh"⟩ 0 "1" none none none [] []
        [⟨⟨"fba_token", "1", ⟨[], "x", "y"⟩⟩, ⟨[], "x", "y"⟩, 5⟩]).1 (by decide)).1
      ⟨"fba_token", "1", ⟨[], "x", "y"⟩⟩ (by decide)).trans (by decide),
   ((multi_login_delete_iff
        ⟨"k", "HS256", 3600, 604800, "fba_token", "fba_refresh"⟩ 0 "1" none none (some false) [] []
        [⟨⟨"fba_token", "1", ⟨[], "x", "y"⟩⟩, ⟨[], "x", "y"⟩, 5⟩]).2 rfl).1
      ⟨"fba_token", "1", ⟨[], "x", "y"⟩⟩ rfl rfl (by decide)⟩

/-- Every entry of the store holds its own key's token as stored value. -/
def StoreWF (st : Store) : Prop := ∀ e ∈ st, e.value = e.key.tok

theorem storeWF_redis_get (st : Store) (hwf : StoreWF st) (k : RKey) (v : Token)
    (h : redis_get st k = some v) : v = k.tok := by
  rw [redis_get] at h
  cases hentry : redis_entry st k with
  | none => rw [hentry] at h; cases h
  | some e =>
    rw [hentry] at h
    obtain ⟨hm, hk⟩ := redis_entry_eq_some st k e hentry
    cases h
    rw [hwf e hm, hk]

/-- C9: both issuing functions store the token itself as the value under the
key ending in that token, and this shape is invariant; on such stores a
successful `get` always returns the key's own token, so the value-mismatch
branch of `create_new_token` is unreachable — it can only fail because the
entry is absent. -/
theorem revocation_value_invariant (S : Settings) (now : Int) (sub : String)
    (d T : Option Int) (ml : Option Bool) (kwargs : Claims) (rtok : Token) (st : Store) :
    (StoreWF st → StoreWF (create_access_token S now sub d ml kwargs st).store)
    ∧ (StoreWF st → StoreWF (create_refresh_token S now sub T ml kwargs st).store)
    ∧ (StoreWF st → ∀ k v, redis_get st k = some v → v = k.tok)
    ∧ (StoreWF st →
        ∀ err, create_new_token S now sub rtok ml kwargs st = Except.error err →
          redis_get st ⟨S.TOKEN_REFRESH_REDIS_PREFIX, sub, rtok⟩ = none) := by
  refine ⟨?_, ?_, ?_, ?_⟩
  · intro hwf e he
    rw [create_access_token_store, redis_setex] at he
    rcases List.mem_cons.mp he with he | he
    · subst he; rfl
    · have h1 := mem_remove_key _ _ _ he
      by_cases hml : ml = some false
      · rw [if_pos hml] at h1
        exact hwf e (mem_delete_prefixed _ _ _ _ h1)
      · rw [if_neg hml] at h1
        exact hwf e h1
  · intro hwf e he
    rw [create_refresh_token_store, redis_setex] at he
    rcases List.mem_cons.mp he with he | he
    · subst he; rfl
    · have h1 := mem_remove_key _ _ _ he
      by_cases hml : ml = some false
      · rw [if_pos hml] at h1
        exact hwf e (mem_delete_prefixed _ _ _ _ h1)
      · rw [if_neg hml] at h1
        exact hwf e h1
  · intro hwf k v h
    exact storeWF_redis_get st hwf k v h
  · intro hwf err herr
    cases hg : redis_get st ⟨S.TOKEN_REFRESH_REDIS_PREFIX, sub, rtok⟩ with
    | none => rfl
    | some v =>
      have hv : v = rtok := storeWF_redis_get st hwf _ v hg
      rw [create_new_token, hg] at herr
      simp [hv] at herr

/-- Witness for C9: on the empty (well-formed) store `create_new_token`
fails and its refresh lookup is indeed absent. -/
theorem revocation_value_invariant_witness :
    redis_get ([] : Store) ⟨"fba_refresh", "1", ⟨[], "k", "HS256"⟩⟩ = none :=
  (revocation_value_invariant
      ⟨"k", "HS256", 3600, 604800, "fba_token", "fba_refresh"⟩ 0 "1" none none none []
      ⟨[], "k", "HS256"⟩ []).2.2.2
    (fun e he => absurd he (List.not_mem_nil e))
    (AppError.tokenError (some "refresh_token 已过期")) (by decide)

/-- C5: `create_new_token` fails with `TokenError` exactly when the refresh
entry for `(subject, presented token)` is absent or stores a different value;
on success it returns exactly a fresh access-token issuance with the
pass-through keyword arguments and leaves the refresh token's own entry
untouched (no rotation, re-registration or deletion).  The two Redis
namespaces are assumed distinct, as in the application configuration. -/
theorem create_new_token_spec (S : Settings) (now : Int) (sub : String) (rtok : Token)
    (ml : Option Bool) (kwargs : Claims) (st : Store)
    (hns : S.TOKEN_REDIS_PREFIX ≠ S.TOKEN_REFRESH_REDIS_PREFIX) :
    (create_new_token S now sub rtok ml kwargs st
        = Except.error (AppError.tokenError (some "refresh_token 已过期"))
      ↔ redis_get st ⟨S.TOKEN_REFRESH_REDIS_PREFIX, sub, rtok⟩ ≠ some rtok)
    ∧ (∀ r, create_new_token S now sub rtok ml kwargs st = Except.ok r →
        r = create_access_token S now sub none ml kwargs st
        ∧ redis_entry r.store ⟨S.TOKEN_REFRESH_REDIS_PREFIX, sub, rtok⟩
            = redis_entry st ⟨S.TOKEN_REFRESH_REDIS_PREFIX, sub, rtok⟩) := by
  have hframe : redis_entry (create_access_token S now sub none ml kwargs st).store
      ⟨S.TOKEN_REFRESH_REDIS_PREFIX, sub, rtok⟩
      = redis_entry st ⟨S.TOKEN_REFRESH_REDIS_PREFIX, sub, rtok⟩ := by
    rw [create_access_token_store,
      redis_entry_setex_ne _ _ _ _ _ (fun hc => hns (congrArg RKey.ns hc).symm)]
    by_cases hml : ml = some false
    · rw [if_pos hml,
        redis_entry_delete_prefixed_miss _ _ _ _ (fun hc => hns hc.1.symm)]
    · rw [if_neg hml]
  constructor
  · cases hg : redis_get st ⟨S.TOKEN_REFRESH_REDIS_PREFIX, sub, rtok⟩ with
    | none => simp [create_new_token, hg]
    | some v =>
      by_cases hv : v = rtok
      · subst hv
        simp [create_new_token, hg]
      · simp [create_new_token, hg, hv]
  · intro r hr
    cases hg : redis_get st ⟨S.TOKEN_REFRESH_REDIS_PREFIX, sub, rtok⟩ with
    | none =>
      rw [create_new_token, hg] at hr
      cases hr
    | some v =>
      rw [create_new_token, hg] at hr
      simp only [] at hr
      by_cases hv : v = rtok
      · rw [if_pos hv] at hr
        injection hr with h
        subst h
        exact ⟨rfl, hframe⟩
      · rw [if_neg hv] at hr
        cases hr

/-- Witness for C5: the failure side at an empty store, and the success side
(frame on the refresh entry) at a store holding the matching refresh entry. -/
theorem create_new_token_spec_witness :
    create_new_token ⟨"k", "HS256", 3600, 604800, "fba_token", "fba_refresh"⟩ 0 "1"
        ⟨[("exp", JValue.jint 99)], "k", "HS256"⟩ none [] []
      = Except.error (AppError.tokenError (some "refresh_token 已过期"))
    ∧ redis_entry (create_access_token
          ⟨"k", "HS256", 3600, 604800, "fba_token", "fba_refresh"⟩ 0 "1" none none []
          [⟨⟨"fba_refresh", "1", ⟨[("exp", JValue.jint 99)], "k", "HS256"⟩⟩,
            ⟨[("exp", JValue.jint 99)], "k", "HS256"⟩, 50⟩]).store
        ⟨"fba_refresh", "1", ⟨[("exp", JValue.jint 99)], "k", "HS256"⟩⟩
      = redis_entry
          [⟨⟨"fba_refresh", "1", ⟨[("exp", JValue.jint 99)], "k", "HS256"⟩⟩,
            ⟨[("exp", JValue.jint 99)], "k", "HS256"⟩, 50⟩]
        ⟨"fba_refresh", "1", ⟨[("exp", JValue.jint 99)], "k", "HS256"⟩⟩ :=
  ⟨(create_new_token_spec ⟨"k", "HS256", 3600, 604800, "fba_token", "fba_refresh"⟩ 0 "1"
      ⟨[("exp", JValue.jint 99)], "k", "HS256"⟩ none [] [] (by decide)).1.mpr (by decide),
   ((create_new_token_spec ⟨"k", "HS256", 3600, 604800, "fba_token", "fba_refresh"⟩ 0 "1"
      ⟨[("exp", JValue.jint 99)], "k", "HS256"⟩ none []
      [⟨⟨"fba_refresh", "1", ⟨[("exp", JValue.jint 99)], "k", "HS256"⟩⟩,
        ⟨[("exp", JValue.jint 99)], "k", "HS256"⟩, 50⟩] (by decide)).2
     (create_access_token ⟨"k", "HS256", 3600, 604800, "fba_token", "fba_refresh"⟩ 0 "1"
       none none []
       [⟨⟨"fba_refresh", "1", ⟨[("exp", JValue.jint 99)], "k", "HS256"⟩⟩,
         ⟨[("exp", JValue.jint 99)], "k", "HS256"⟩, 50⟩]) (by decide)).2⟩

/-- C1: decoding a token produced by `create_access_token` before its
embedded expiry recovers exactly the encoded claims — the subject id the
`sub` string encodes and the encoded `role_ids` — provided the subject is
valid (parses to a non-zero integer), the role list is non-empty, and the
keyword arguments do not shadow the reserved `sub`/`exp` claims. -/
theorem decode_encode_roundtrip (S : Settings) (now now2 uid : Int) (sub : String)
    (ids : List Int) (kwargs : Claims) (d : Option Int) (ml : Option Bool) (st : Store)
    (hclean : ∀ e ∈ kwargs, e.1 ≠ "sub" ∧ e.1 ≠ "exp")
    (hsub : py_int_of_string sub = some uid) (huid : uid ≠ 0)
    (hrids : dget kwargs "role_ids" = some (JValue.jlist ids)) (hids : ids ≠ [])
    (hbefore : now2 < (create_access_token S now sub d ml kwargs st).expire) :
    jwt_decode S now2 (create_access_token S now sub d ml kwargs st).token
      = Except.ok (uid, ids) := by
  rw [create_access_token_token]
  have hexp : dget (("exp", JValue.jint (create_access_token S now sub d ml kwargs st).expire)
        :: ("sub", JValue.jstr sub) :: kwargs) "exp"
      = some (JValue.jint (create_access_token S now sub d ml kwargs st).expire) :=
    dget_to_encode_exp _ _ _ (fun e he => (hclean e he).2)
  have hsubc : dget (("exp", JValue.jint (create_access_token S now sub d ml kwargs st).expire)
        :: ("sub", JValue.jstr sub) :: kwargs) "sub"
      = some (JValue.jstr sub) :=
    dget_to_encode_sub _ _ _ (fun e he => (hclean e he).1)
  have hrole : dget (("exp", JValue.jint (create_access_token S now sub d ml kwargs st).expire)
        :: ("sub", JValue.jstr sub) :: kwargs) "role_ids"
      = some (JValue.jlist ids) := by
    rw [dget_to_encode_other _ _ _ _ (by simp) (by simp)]
    exact hrids
  have hjose : jose_decode
      ⟨("exp", JValue.jint (create_access_token S now sub d ml kwargs st).expire)
        :: ("sub", JValue.jstr sub) :: kwargs,
        S.TOKEN_SECRET_KEY, S.TOKEN_ALGORITHM⟩
      S.TOKEN_SECRET_KEY [S.TOKEN_ALGORITHM] now2
      = some (("exp", JValue.jint (create_access_token S now sub d ml kwargs st).expire)
        :: ("sub", JValue.jstr sub) :: kwargs) := by
    simp [jose_decode, exp_ok, hexp, sub_claim_ok, hsubc, le_of_lt hbefore]
  simp [jwt_decode, hjose, hsubc, pyInt, hsub, hrole, pyIntList, huid, hids]

/-- Witness for C1: a concrete issuance for subject "42" with roles [1, 2]
decodes back to (42, [1, 2]) before expiry. -/
theorem decode_encode_roundtrip_witness :
    jwt_decode ⟨"k", "HS256", 3600, 604800, "fba_token", "fba_refresh"⟩ 10
      (create_access_token ⟨"k", "HS256", 3600, 604800, "fba_token", "fba_refresh"⟩ 0 "42"
        none none [("role_ids", JValue.jlist [1, 2])] []).token
      = Except.ok (42, [1, 2]) :=
  decode_encode_roundtrip ⟨"k", "HS256", 3600, 604800, "fba_token", "fba_refresh"⟩ 0 10 42
    "42" [1, 2] [("role_ids", JValue.jlist [1, 2])] none none []
    (by decide) (by decide) (by decide) (by decide) (by decide) (by decide)

end FBA
